import Mathlib

/-!
Shallow embedding of the deadoralive link checker (deadoralive.py) and proofs
about it.

The program is glue code around four operations: list the resource ids to
check, resolve the URL of one resource id, probe one URL, and report one
result back. Network interaction is embedded by passing an oracle describing
what the network returns; Python exceptions are embedded as Except; the
result dict built by check_url is embedded as an insertion ordered
association list so that presence and absence of keys is observable; and the
aliasing behaviour of upsert_result is embedded with an explicit heap of
dict objects.
-/

namespace Deadoralive

/-- Python values that can appear in the result dict built by check_url and
in request parameters: strings, ints, booleans and None. -/
inductive PyVal where
  | str (s : String)
  | int (n : Nat)
  | bool (b : Bool)
  | null
deriving DecidableEq, Repr

/-- Python dict with string keys, as an insertion ordered association list. -/
abbrev Dict := List (String × PyVal)

/-- Python membership test k in d. -/
def dictContains (d : Dict) (k : String) : Bool :=
  d.any (fun p => p.1 == k)

/-- Python lookup d.get(k): the value stored under k, if any. -/
def dictGet (d : Dict) (k : String) : Option PyVal :=
  (d.find? (fun p => p.1 == k)).map (fun p => p.2)

/-- Python assignment d[k] = v: replaces the value when the key is present,
otherwise appends the new binding at the end. -/
def dictSet (d : Dict) (k : String) (v : PyVal) : Dict :=
  if d.any (fun p => p.1 == k) then d.map (fun p => if p.1 == k then (k, v) else p)
  else d ++ [(k, v)]

/-- An HTTP request as handed to the requests library: method, URL, the
headers dict (whose values may be None, as in dict(Authorization=apikey))
and the query or form parameters. -/
structure Request where
  method : String
  url : String
  headers : List (String × Option String)
  params : Dict
deriving DecidableEq, Repr

/-- Headers actually placed on the wire: the requests library removes every
header whose value is None, so dict(Authorization=apikey) sends no
Authorization header at all when apikey is None. -/
def sentHeaders (hs : List (String × Option String)) : List (String × String) :=
  hs.filterMap (fun p => p.2.map (fun v => (p.1, v)))

/-- An HTTP response from the client site, with the status code, the reason
phrase, and the decoded JSON body of type α. -/
structure HttpResponse (α : Type) where
  status : Nat
  reason : String
  body : α

/-- The ok property of a requests response: it calls raise_for_status and
returns False exactly when that raises, which happens exactly for statuses
400 to 599 (so 1xx, 3xx and statuses of 600 and above are ok too). -/
def HttpResponse.ok {α : Type} (r : HttpResponse α) : Bool :=
  decide (¬ (400 ≤ r.status ∧ r.status < 600))

/-- The request issued by get_resources_to_check. -/
def listRequest (client_site_url : String) (apikey : Option String) : Request :=
  { method := "GET"
    url := client_site_url ++ "deadoralive/get_resources_to_check"
    headers := [("Authorization", apikey)]
    params := [] }

/-- Embedding of get_resources_to_check. The CouldNotGetResourceIDsError
raised on a non success response is modelled as Except.error carrying the
formatted message; on success the decoded JSON body (a list of resource ids)
is returned. -/
def get_resources_to_check (net : Request → HttpResponse (List String))
    (client_site_url : String) (apikey : Option String) : Except String (List String) :=
  let response := net (listRequest client_site_url apikey)
  if ¬ response.ok then
    Except.error ("Couldn\x27t get resource IDs to check: " ++
      toString response.status ++ " " ++ response.reason)
  else Except.ok response.body

/-- The request issued by get_url_for_id, carrying the resource id as a
query parameter. -/
def resolveRequest (client_site_url : String) (apikey : Option String)
    (resource_id : String) : Request :=
  { method := "GET"
    url := client_site_url ++ "deadoralive/get_url_for_resource_id"
    headers := [("Authorization", apikey)]
    params := [("resource_id", PyVal.str resource_id)] }

/-- Embedding of get_url_for_id. The CouldNotGetURLError raised on a non
success response is modelled as Except.error carrying the formatted message;
on success the decoded JSON body (the URL string) is returned. -/
def get_url_for_id (net : Request → HttpResponse String)
    (client_site_url : String) (apikey : Option String)
    (resource_id : String) : Except String String :=
  let response := net (resolveRequest client_site_url apikey resource_id)
  if ¬ response.ok then
    Except.error ("Couldn\x27t get URL for resource " ++ resource_id ++ ": " ++
      toString response.status ++ " " ++ response.reason)
  else Except.ok response.body

/-- Outcome of requests.get(url) inside check_url: either an HTTP response,
described by its status code and reason phrase, or a raised
requests.exceptions.RequestException whose str is msg. -/
inductive Outcome where
  | resp (status : Nat) (reason : String)
  | exn (msg : String)
deriving DecidableEq, Repr

/-- Message of the HTTPError raised by response.raise_for_status, which the
requests library raises exactly when 400 <= status < 600. -/
def raiseForStatusMsg (status : Nat) (reason : String) : String :=
  if status < 500 then toString status ++ " Client Error: " ++ reason
  else toString status ++ " Server Error: " ++ reason

/-- Embedding of the except requests.exceptions.RequestException handler of
check_url: set alive to False, then fill in reason and status only when the
try body did not already set them. -/
def requestExceptionHandler (result : Dict) (errMsg : String) : Dict :=
  let result := dictSet result "alive" (PyVal.bool false)
  let result :=
    if dictContains result "reason" then result
    else dictSet result "reason" (PyVal.str errMsg)
  if dictContains result "status" then result
  else dictSet result "status" PyVal.null

/-- The try and except blocks of check_url, as a function of the outcome of
requests.get(url). The dict starts as only the url binding; on a response
the try body records status and reason, then raise_for_status raises
(caught by the handler) exactly when 400 <= status < 600, otherwise alive is
set to True; on a transport exception the handler runs on the initial dict. -/
def checkUrlDict (url : String) (o : Outcome) : Dict :=
  let result : Dict := [("url", PyVal.str url)]
  match o with
  | Outcome.resp status reason =>
    let result := dictSet result "status" (PyVal.int status)
    let result := dictSet result "reason" (PyVal.str reason)
    if 400 ≤ status ∧ status < 600 then
      requestExceptionHandler result (raiseForStatusMsg status reason)
    else dictSet result "alive" (PyVal.bool true)
  | Outcome.exn msg => requestExceptionHandler result msg

/-- Embedding of check_url: the try and except blocks (checkUrlDict) on the
outcome the network gives for this url, followed by the four asserts, which
are modelled by returning Except.error when they would fail. -/
def check_url (net : String → Outcome) (url : String) : Except String Dict :=
  let result := checkUrlDict url (net url)
  if dictContains result "url" ∧
      (dictGet result "alive" = some (PyVal.bool true) ∨
        dictGet result "alive" = some (PyVal.bool false)) ∧
      dictContains result "status" ∧ dictContains result "reason" then
    Except.ok result
  else Except.error "AssertionError"

/-- Heap of Python dict objects; an address is an index into the list. The
heap makes aliasing observable: an in place update at one address must not
change the dict stored at another. -/
abbrev Heap := List Dict

/-- Python d.copy() for the dict at address a: allocate a fresh object
holding the same entries; returns the new heap and the address of the copy. -/
def heapCopy (h : Heap) (a : Nat) : Heap × Nat :=
  (h ++ [h.getD a []], h.length)

/-- Python d[k] = v on the dict object stored at address a: in place update
of that object. -/
def heapSetItem (h : Heap) (a : Nat) (k : String) (v : PyVal) : Heap :=
  h.set a (dictSet (h.getD a []) k v)

/-- Embedding of upsert_result: params = result.copy(), then
params[resource_id] = resource_id on the copy, then an authenticated POST of
the params. Returns the heap after the call together with the issued
request. -/
def upsert_result (client_site_url : String) (apikey : Option String)
    (resource_id : String) (h : Heap) (result : Nat) : Heap × Request :=
  let hp := heapCopy h result
  let h1 := hp.1
  let params := hp.2
  let h2 := heapSetItem h1 params "resource_id" (PyVal.str resource_id)
  (h2,
   { method := "POST"
     url := client_site_url ++ "deadoralive/upsert"
     headers := [("Authorization", apikey)]
     params := h2.getD params [] })

/-- A link check result as a structured value: a result dict together with
its four mandatory fields, as produced by check_url and consumed by the
orchestrator and the tests. -/
structure ProbeResult where
  url : String
  alive : Bool
  status : Option Nat
  reason : String
deriving DecidableEq, Repr

/-- Python str of a status that may be None. -/
def statusStr (status : Option Nat) : String :=
  match status with
  | none => "None"
  | some n => toString n

/-- Log line written when a resource is skipped because its URL could not be
resolved. -/
def skipLogMsg (resource_id : String) : String :=
  "This link checker was not authorized to access resource " ++
    resource_id ++ ", skipping."

/-- Log line written after checking a URL, for the alive and the dead case. -/
def checkLogMsg (url resource_id : String) (result : ProbeResult) : String :=
  if result.alive then
    "Checking URL " ++ url ++ " of resource " ++ resource_id ++
      " succeeded with status " ++ statusStr result.status ++ ":"
  else
    "Checking URL " ++ url ++ " of resource " ++ resource_id ++
      " failed with error " ++ result.reason ++ ":"

/-- Observable action of the orchestrator, recorded in execution order:
calls of the four injected collaborators and the written log lines. -/
inductive CallEvent where
  | listResources (base : String) (key : Option String)
  | resolve (base : String) (key : Option String) (id : String)
  | probe (url : String)
  | log (msg : String)
  | report (base : String) (key : Option String) (id : String) (result : ProbeResult)
deriving DecidableEq, Repr

/-- Body of the per resource loop of get_check_and_report: call the resolver
with (base, key, id); on CouldNotGetURLError log the skip and continue,
otherwise probe the resolved URL, log the outcome, and report the id with
the exact probe result. -/
def processResource (base : String) (key : Option String)
    (resolver : String → Option String → String → Except String String)
    (prober : String → ProbeResult) (resource_id : String) : List CallEvent :=
  CallEvent.resolve base key resource_id ::
    match resolver base key resource_id with
    | Except.error _ => [CallEvent.log (skipLogMsg resource_id)]
    | Except.ok url =>
      let result := prober url
      [CallEvent.probe url, CallEvent.log (checkLogMsg url resource_id result),
       CallEvent.report base key resource_id result]

/-- Embedding of get_check_and_report over its injected collaborators. The
lister is called first; a CouldNotGetResourceIDsError from it is not caught
and aborts the whole run (Except.error, empty trace). On success the
returned trace records, in order, every collaborator call and log line of
the loop. -/
def get_check_and_report (base : String) (key : Option String)
    (lister : String → Option String → Except String (List String))
    (resolver : String → Option String → String → Except String String)
    (prober : String → ProbeResult) : Except String (List CallEvent) :=
  match lister base key with
  | Except.error e => Except.error e
  | Except.ok resource_ids =>
    Except.ok (CallEvent.listResources base key ::
      resource_ids.flatMap (processResource base key resolver prober))

/-- Python endswith with the one character suffix "/": the last character of
the string is the slash. -/
def endsWithSlash (s : String) : Bool :=
  s.data.getLast? == some '/'

/-- Trailing slash normalization applied to the --url argument in main. -/
def normalizeBaseUrl (s : String) : String :=
  if endsWithSlash s then s else s ++ "/"

/-- Outcome of binding the single instance guard socket in main. -/
inductive BindOutcome where
  | success
  | failure (errno : Nat)
deriving DecidableEq, Repr

/-- Result of a run of main: sys.exit with a message, an re raised socket
error, or a completed call of get_check_and_report with its trace. -/
inductive MainOutcome where
  | exited (msg : String)
  | raised (errno : Nat)
  | ran (trace : Except String (List CallEvent))

/-- Exit message printed by main when the guard port is already in use
(errno 98); process stands for sys.argv[0]. -/
def portInUseMsg (port : Nat) (process : String) : String :=
  "Port " ++ toString port ++ " is already in use.\n" ++
    "Is there another instance of " ++ process ++ " already running?\n" ++
    "To run multiple instances of " ++ process ++
    " at once use the --port <num> option."

/-- Embedding of main after argument parsing: normalize the base URL, bind
the single instance guard socket (errno 98 exits with the port message, any
other errno is re raised), then run get_check_and_report. -/
def main (url : String) (apikey : Option String) (port : Nat) (process : String)
    (bind : BindOutcome)
    (lister : String → Option String → Except String (List String))
    (resolver : String → Option String → String → Except String String)
    (prober : String → ProbeResult) : MainOutcome :=
  let client_site_url := normalizeBaseUrl url
  match bind with
  | BindOutcome.failure errno =>
    if errno = 98 then MainOutcome.exited (portInUseMsg port process)
    else MainOutcome.raised errno
  | BindOutcome.success =>
    MainOutcome.ran (get_check_and_report client_site_url apikey lister resolver prober)

/-! Helper lemmas: the three shapes a check_url result dict can take. -/

lemma checkUrlDict_resp_alive (url : String) (s : Nat) (r : String)
    (hc : ¬ (400 ≤ s ∧ s < 600)) :
    checkUrlDict url (Outcome.resp s r) =
      [("url", PyVal.str url), ("status", PyVal.int s), ("reason", PyVal.str r),
        ("alive", PyVal.bool true)] := by
  have hstep : checkUrlDict url (Outcome.resp s r) =
      if 400 ≤ s ∧ s < 600 then
        requestExceptionHandler
          (dictSet (dictSet [("url", PyVal.str url)] "status" (PyVal.int s))
            "reason" (PyVal.str r)) (raiseForStatusMsg s r)
      else
        dictSet (dictSet (dictSet [("url", PyVal.str url)] "status" (PyVal.int s))
          "reason" (PyVal.str r)) "alive" (PyVal.bool true) := rfl
  rw [hstep, if_neg hc]
  rfl

lemma checkUrlDict_resp_dead (url : String) (s : Nat) (r : String)
    (h4 : 400 ≤ s) (h6 : s < 600) :
    checkUrlDict url (Outcome.resp s r) =
      [("url", PyVal.str url), ("status", PyVal.int s), ("reason", PyVal.str r),
        ("alive", PyVal.bool false)] := by
  have hstep : checkUrlDict url (Outcome.resp s r) =
      if 400 ≤ s ∧ s < 600 then
        requestExceptionHandler
          (dictSet (dictSet [("url", PyVal.str url)] "status" (PyVal.int s))
            "reason" (PyVal.str r)) (raiseForStatusMsg s r)
      else
        dictSet (dictSet (dictSet [("url", PyVal.str url)] "status" (PyVal.int s))
          "reason" (PyVal.str r)) "alive" (PyVal.bool true) := rfl
  rw [hstep, if_pos ⟨h4, h6⟩]
  rfl

lemma checkUrlDict_exn (url msg : String) :
    checkUrlDict url (Outcome.exn msg) =
      [("url", PyVal.str url), ("alive", PyVal.bool false),
        ("reason", PyVal.str msg), ("status", PyVal.null)] := rfl

lemma check_url_eq_of_resp_alive (net : String → Outcome) (url : String) (s : Nat)
    (r : String) (hnet : net url = Outcome.resp s r) (hc : ¬ (400 ≤ s ∧ s < 600)) :
    check_url net url = Except.ok
      [("url", PyVal.str url), ("status", PyVal.int s), ("reason", PyVal.str r),
        ("alive", PyVal.bool true)] := by
  unfold check_url
  rw [hnet, checkUrlDict_resp_alive url s r hc]
  rfl

lemma check_url_eq_of_resp_dead (net : String → Outcome) (url : String) (s : Nat)
    (r : String) (hnet : net url = Outcome.resp s r) (h4 : 400 ≤ s) (h6 : s < 600) :
    check_url net url = Except.ok
      [("url", PyVal.str url), ("status", PyVal.int s), ("reason", PyVal.str r),
        ("alive", PyVal.bool false)] := by
  unfold check_url
  rw [hnet, checkUrlDict_resp_dead url s r h4 h6]
  rfl

lemma check_url_eq_of_exn (net : String → Outcome) (url : String) (msg : String)
    (hnet : net url = Outcome.exn msg) :
    check_url net url = Except.ok
      [("url", PyVal.str url), ("alive", PyVal.bool false),
        ("reason", PyVal.str msg), ("status", PyVal.null)] := by
  unfold check_url
  rw [hnet, checkUrlDict_exn url msg]
  rfl

/-- Claim C2 as stated: every received response whose status is not a
success (2xx) yields a result with alive = False (together with that status
and reason). -/
def nonSuccessImpliesDead : Prop :=
  ∀ (net : String → Outcome) (url : String) (s : Nat) (r : String),
    net url = Outcome.resp s r → ¬ (200 ≤ s ∧ s ≤ 299) →
    ∃ d, check_url net url = Except.ok d ∧
      dictGet d "alive" = some (PyVal.bool false) ∧
      dictGet d "status" = some (PyVal.int s) ∧
      dictGet d "reason" = some (PyVal.str r)

/-- C2 counterexample: a 304 Not Modified response is outside the 2xx range,
yet check_url marks the URL alive, because raise_for_status raises only for
statuses 400 to 599. -/
theorem check_url_non2xx_alive_counterexample : ¬ nonSuccessImpliesDead := by
  intro hcl
  obtain ⟨d, hd, ha, _, _⟩ :=
    hcl (fun _ => Outcome.resp 304 "Not Modified") "http://example.com/x"
      304 "Not Modified" rfl (by decide)
  have hcu : check_url (fun _ => Outcome.resp 304 "Not Modified") "http://example.com/x" =
      Except.ok [("url", PyVal.str "http://example.com/x"), ("status", PyVal.int 304),
        ("reason", PyVal.str "Not Modified"), ("alive", PyVal.bool true)] := rfl
  rw [hcu] at hd
  injection hd with hd2
  subst hd2
  have ha2 : some (PyVal.bool true) = some (PyVal.bool false) := ha
  injection ha2 with ha3
  exact absurd ha3 (by decide)

/-- C2 (amended): check_url classifies outcomes by the raise_for_status
rule. A response with status outside 400..599 (in particular every 2xx)
yields alive = True with that status and the received reason phrase; a
response with status in 400..599 yields alive = False with that status and
reason phrase; a transport failure yields alive = False, status None, and
the exception text as reason. -/
theorem check_url_classification (net : String → Outcome) (url : String)
    (s : Nat) (r : String) (msg : String) :
    (net url = Outcome.resp s r → ¬ (400 ≤ s ∧ s < 600) →
      check_url net url = Except.ok
        [("url", PyVal.str url), ("status", PyVal.int s), ("reason", PyVal.str r),
          ("alive", PyVal.bool true)]) ∧
    (net url = Outcome.resp s r → 400 ≤ s → s < 600 →
      check_url net url = Except.ok
        [("url", PyVal.str url), ("status", PyVal.int s), ("reason", PyVal.str r),
          ("alive", PyVal.bool false)]) ∧
    (net url = Outcome.exn msg →
      check_url net url = Except.ok
        [("url", PyVal.str url), ("alive", PyVal.bool false),
          ("reason", PyVal.str msg), ("status", PyVal.null)]) := by
  refine ⟨?_, ?_, ?_⟩
  · intro hnet hc
    exact check_url_eq_of_resp_alive net url s r hnet hc
  · intro hnet h4 h6
    exact check_url_eq_of_resp_dead net url s r hnet h4 h6
  · intro hnet
    exact check_url_eq_of_exn net url msg hnet

/-- C2 witness: the classification evaluated on a 200 OK response, a 500
Internal Server Error response, and a transport exception. -/
theorem check_url_classification_witness :
    check_url (fun _ => Outcome.resp 200 "OK") "http://x/a" = Except.ok
      [("url", PyVal.str "http://x/a"), ("status", PyVal.int 200),
        ("reason", PyVal.str "OK"), ("alive", PyVal.bool true)] ∧
    check_url (fun _ => Outcome.resp 500 "Internal Server Error") "http://x/a" = Except.ok
      [("url", PyVal.str "http://x/a"), ("status", PyVal.int 500),
        ("reason", PyVal.str "Internal Server Error"), ("alive", PyVal.bool false)] ∧
    check_url (fun _ => Outcome.exn "Oh no invalid HTTP!") "http://x/a" = Except.ok
      [("url", PyVal.str "http://x/a"), ("alive", PyVal.bool false),
        ("reason", PyVal.str "Oh no invalid HTTP!"), ("status", PyVal.null)] :=
  ⟨(check_url_classification (fun _ => Outcome.resp 200 "OK") "http://x/a"
      200 "OK" "").1 rfl (by decide),
    (check_url_classification (fun _ => Outcome.resp 500 "Internal Server Error")
      "http://x/a" 500 "Internal Server Error" "").2.1 rfl (by decide) (by decide),
    (check_url_classification (fun _ => Outcome.exn "Oh no invalid HTTP!")
      "http://x/a" 0 "" "Oh no invalid HTTP!").2.2 rfl⟩

/-- Claim C3 as stated: every check_url result passes the asserts, has all
four keys, a boolean alive, a non empty string reason, and a None status
exactly on transport failure. -/
def probeResultReasonNonEmptyClaim : Prop :=
  ∀ (net : String → Outcome) (url : String),
    ∃ d, check_url net url = Except.ok d ∧
      dictContains d "url" = true ∧ dictContains d "alive" = true ∧
      dictContains d "status" = true ∧ dictContains d "reason" = true ∧
      (∃ b, dictGet d "alive" = some (PyVal.bool b)) ∧
      (∃ s, dictGet d "reason" = some (PyVal.str s) ∧ s ≠ "") ∧
      (dictGet d "status" = some PyVal.null ↔ ∃ m, net url = Outcome.exn m)

/-- C3 counterexample: a response whose reason phrase is the empty string
(which the requests library passes through unchanged) gives a result whose
reason is the empty string, so the reason field is not always non empty. -/
theorem check_url_empty_reason_counterexample : ¬ probeResultReasonNonEmptyClaim := by
  intro hcl
  obtain ⟨d, hd, _, _, _, _, _, ⟨s, hs, hne⟩, _⟩ :=
    hcl (fun _ => Outcome.resp 200 "") "http://x/a"
  have hcu : check_url (fun _ => Outcome.resp 200 "") "http://x/a" =
      Except.ok [("url", PyVal.str "http://x/a"), ("status", PyVal.int 200),
        ("reason", PyVal.str ""), ("alive", PyVal.bool true)] := rfl
  rw [hcu] at hd
  injection hd with hd2
  subst hd2
  have hs2 : some (PyVal.str "") = some (PyVal.str s) := hs
  injection hs2 with hs3
  injection hs3 with hs4
  exact hne hs4.symm

/-- C3 (amended): every check_url result passes the asserts and contains all
four keys; alive is a boolean; reason is a string (the received reason
phrase or the exception text, so it is empty only when those are); and
status is None exactly when no valid HTTP response was received. -/
theorem check_url_result_invariant (net : String → Outcome) (url : String) :
    ∃ d, check_url net url = Except.ok d ∧
      dictContains d "url" = true ∧ dictContains d "alive" = true ∧
      dictContains d "status" = true ∧ dictContains d "reason" = true ∧
      (∃ b, dictGet d "alive" = some (PyVal.bool b)) ∧
      (∃ s, dictGet d "reason" = some (PyVal.str s)) ∧
      (dictGet d "status" = some PyVal.null ↔ ∃ m, net url = Outcome.exn m) := by
  cases hout : net url with
  | resp s r =>
    by_cases hc : 400 ≤ s ∧ s < 600
    · refine ⟨_, check_url_eq_of_resp_dead net url s r hout hc.1 hc.2,
        rfl, rfl, rfl, rfl, ⟨false, rfl⟩, ⟨r, rfl⟩, ?_, ?_⟩
      · intro hst
        have h2 : some (PyVal.int s) = some PyVal.null := hst
        injection h2 with h3
        exact PyVal.noConfusion h3
      · rintro ⟨m, hm⟩
        exact Outcome.noConfusion hm
    · refine ⟨_, check_url_eq_of_resp_alive net url s r hout hc,
        rfl, rfl, rfl, rfl, ⟨true, rfl⟩, ⟨r, rfl⟩, ?_, ?_⟩
      · intro hst
        have h2 : some (PyVal.int s) = some PyVal.null := hst
        injection h2 with h3
        exact PyVal.noConfusion h3
      · rintro ⟨m, hm⟩
        exact Outcome.noConfusion hm
  | exn m =>
    refine ⟨_, check_url_eq_of_exn net url m hout,
      rfl, rfl, rfl, rfl, ⟨false, rfl⟩, ⟨m, rfl⟩, ?_, ?_⟩
    · intro _
      exact ⟨m, rfl⟩
    · intro _
      rfl

/-- C4: check_url never raises to its caller. For every URL and every
outcome of the underlying request (response with any status, or any raised
RequestException) it returns a result dict: the only modelled failure exit,
a failing assert, is unreachable. -/
theorem check_url_never_raises (net : String → Outcome) (url : String) :
    ∃ d, check_url net url = Except.ok d := by
  cases hout : net url with
  | resp s r =>
    by_cases hc : 400 ≤ s ∧ s < 600
    · exact ⟨_, check_url_eq_of_resp_dead net url s r hout hc.1 hc.2⟩
    · exact ⟨_, check_url_eq_of_resp_alive net url s r hout hc⟩
  | exn m => exact ⟨_, check_url_eq_of_exn net url m hout⟩

/-! Orchestrator claims. -/

lemma processResource_of_ok (base : String) (key : Option String)
    (resolver : String → Option String → String → Except String String)
    (prober : String → ProbeResult) (resource_id url : String)
    (hr : resolver base key resource_id = Except.ok url) :
    processResource base key resolver prober resource_id =
      [CallEvent.resolve base key resource_id, CallEvent.probe url,
        CallEvent.log (checkLogMsg url resource_id (prober url)),
        CallEvent.report base key resource_id (prober url)] := by
  unfold processResource
  rw [hr]

lemma processResource_of_error (base : String) (key : Option String)
    (resolver : String → Option String → String → Except String String)
    (prober : String → ProbeResult) (resource_id : String) (e : String)
    (hr : resolver base key resource_id = Except.error e) :
    processResource base key resolver prober resource_id =
      [CallEvent.resolve base key resource_id, CallEvent.log (skipLogMsg resource_id)] := by
  unfold processResource
  rw [hr]

/-- C1: when the lister returns ids and every resolution succeeds, the run
trace is exactly, in listing order for each id: a resolver call with (base,
key, id), a prober call with the URL resolved for that id, the log line,
and a reporter call with that id and the exact ProbeResult the prober
returned for that URL, whether alive or dead. -/
theorem get_check_and_report_happy_path (base : String) (key : Option String)
    (ids : List String)
    (lister : String → Option String → Except String (List String))
    (resolver : String → Option String → String → Except String String)
    (prober : String → ProbeResult) (resolved : String → String)
    (hl : lister base key = Except.ok ids)
    (hr : ∀ i ∈ ids, resolver base key i = Except.ok (resolved i)) :
    get_check_and_report base key lister resolver prober =
      Except.ok (CallEvent.listResources base key ::
        ids.flatMap (fun i =>
          [CallEvent.resolve base key i, CallEvent.probe (resolved i),
            CallEvent.log (checkLogMsg (resolved i) i (prober (resolved i))),
            CallEvent.report base key i (prober (resolved i))])) := by
  unfold get_check_and_report
  rw [hl]
  have hflat : ∀ l : List String, (∀ i ∈ l, resolver base key i = Except.ok (resolved i)) →
      l.flatMap (processResource base key resolver prober) =
        l.flatMap (fun i =>
          [CallEvent.resolve base key i, CallEvent.probe (resolved i),
            CallEvent.log (checkLogMsg (resolved i) i (prober (resolved i))),
            CallEvent.report base key i (prober (resolved i))]) := by
    intro l
    induction l with
    | nil => intro _; rfl
    | cons a t ih =>
      intro hall
      rw [List.flatMap_cons, List.flatMap_cons,
        ih (fun i hi => hall i (List.mem_cons_of_mem a hi)),
        processResource_of_ok base key resolver prober a (resolved a)
          (hall a (List.mem_cons_self a t))]
  show Except.ok (CallEvent.listResources base key ::
      ids.flatMap (processResource base key resolver prober)) = _
  rw [hflat ids hr]

/-- The lister of the unit test: three fixed resource ids. -/
def testLister : String → Option String → Except String (List String) :=
  fun _ _ => Except.ok ["resource_id_1", "resource_id_2", "resource_id_3"]

/-- The URL map of the unit test resolver. -/
def testResolved : String → String
  | "resource_id_1" => "url_1"
  | "resource_id_2" => "url_2"
  | _ => "url_3"

/-- The resolver of the unit test: always succeeds with the mapped URL. -/
def testResolver : String → Option String → String → Except String String :=
  fun _ _ i => Except.ok (testResolved i)

/-- The prober of the unit test: url_1 and url_3 are alive with 200 OK,
everything else is dead with 500 Internal Server Error. -/
def testProber (url : String) : ProbeResult :=
  if url == "url_1" || url == "url_3" then
    { url := url, alive := true, status := some 200, reason := "OK" }
  else
    { url := url, alive := false, status := some 500, reason := "Internal Server Error" }

/-- C1 witness: the scenario of the unit test, with the full trace spelled
out: three ids, id 1 and id 3 alive, id 2 dead, reporter called three
times with the exact results, in listing order. -/
theorem get_check_and_report_happy_path_witness :
    get_check_and_report "http://demo.ckan.org" (some "foo")
        testLister testResolver testProber =
      Except.ok
        [CallEvent.listResources "http://demo.ckan.org" (some "foo"),
          CallEvent.resolve "http://demo.ckan.org" (some "foo") "resource_id_1",
          CallEvent.probe "url_1",
          CallEvent.log "Checking URL url_1 of resource resource_id_1 succeeded with status 200:",
          CallEvent.report "http://demo.ckan.org" (some "foo") "resource_id_1"
            { url := "url_1", alive := true, status := some 200, reason := "OK" },
          CallEvent.resolve "http://demo.ckan.org" (some "foo") "resource_id_2",
          CallEvent.probe "url_2",
          CallEvent.log "Checking URL url_2 of resource resource_id_2 failed with error Internal Server Error:",
          CallEvent.report "http://demo.ckan.org" (some "foo") "resource_id_2"
            { url := "url_2", alive := false, status := some 500, reason := "Internal Server Error" },
          CallEvent.resolve "http://demo.ckan.org" (some "foo") "resource_id_3",
          CallEvent.probe "url_3",
          CallEvent.log "Checking URL url_3 of resource resource_id_3 succeeded with status 200:",
          CallEvent.report "http://demo.ckan.org" (some "foo") "resource_id_3"
            { url := "url_3", alive := true, status := some 200, reason := "OK" }] := by
  have h := get_check_and_report_happy_path "http://demo.ckan.org" (some "foo")
    ["resource_id_1", "resource_id_2", "resource_id_3"]
    testLister testResolver testProber testResolved rfl (fun i _ => rfl)
  exact h

/-- C5: when resolution of one id fails with a CouldNotGetURLError, the run
logs the skip and continues: the trace processes the ids before it
normally, records only the resolver call and the skip log line for the
failing id, then processes the ids after it normally; and for the failing
id the prober and the reporter are never invoked. -/
theorem get_check_and_report_skip_on_resolution_failure (base : String)
    (key : Option String) (pre post : List String) (bad : String)
    (lister : String → Option String → Except String (List String))
    (resolver : String → Option String → String → Except String String)
    (prober : String → ProbeResult) (e : String)
    (hl : lister base key = Except.ok (pre ++ bad :: post))
    (hr : resolver base key bad = Except.error e) :
    get_check_and_report base key lister resolver prober =
      Except.ok (CallEvent.listResources base key ::
        (pre.flatMap (processResource base key resolver prober) ++
          ([CallEvent.resolve base key bad, CallEvent.log (skipLogMsg bad)] ++
            post.flatMap (processResource base key resolver prober)))) ∧
    (∀ r, CallEvent.report base key bad r ∉
      processResource base key resolver prober bad) ∧
    (∀ u, CallEvent.probe u ∉ processResource base key resolver prober bad) := by
  have hbad := processResource_of_error base key resolver prober bad e hr
  refine ⟨?_, ?_, ?_⟩
  · unfold get_check_and_report
    rw [hl]
    show Except.ok (CallEvent.listResources base key ::
        (pre ++ bad :: post).flatMap (processResource base key resolver prober)) = _
    rw [List.flatMap_append, List.flatMap_cons, hbad]
  · intro r
    rw [hbad]
    simp
  · intro u
    rw [hbad]
    simp

/-- The lister of the C5 witness scenario: three ids. -/
def skipLister : String → Option String → Except String (List String) :=
  fun _ _ => Except.ok ["id_1", "id_2", "id_3"]

/-- The resolver of the C5 witness scenario: not authorized for id_2,
succeeds for every other id. -/
def skipResolver : String → Option String → String → Except String String :=
  fun _ _ i =>
    if i == "id_2" then
      Except.error "Couldn\x27t get URL for resource id_2: 403 Forbidden"
    else Except.ok ("http://x/" ++ i)

/-- The prober of the C5 witness scenario: everything alive with 200 OK. -/
def skipProber (url : String) : ProbeResult :=
  { url := url, alive := true, status := some 200, reason := "OK" }

/-- C5 witness: with id_2 unresolvable among three ids, the trace skips
only id_2 (resolve then skip log, no probe, no report) and still processes
id_1 and id_3; and no report event for id_2 occurs in its loop body. -/
theorem get_check_and_report_skip_witness :
    get_check_and_report "http://demo.ckan.org/" (some "foo")
        skipLister skipResolver skipProber =
      Except.ok
        [CallEvent.listResources "http://demo.ckan.org/" (some "foo"),
          CallEvent.resolve "http://demo.ckan.org/" (some "foo") "id_1",
          CallEvent.probe "http://x/id_1",
          CallEvent.log "Checking URL http://x/id_1 of resource id_1 succeeded with status 200:",
          CallEvent.report "http://demo.ckan.org/" (some "foo") "id_1"
            { url := "http://x/id_1", alive := true, status := some 200, reason := "OK" },
          CallEvent.resolve "http://demo.ckan.org/" (some "foo") "id_2",
          CallEvent.log "This link checker was not authorized to access resource id_2, skipping.",
          CallEvent.resolve "http://demo.ckan.org/" (some "foo") "id_3",
          CallEvent.probe "http://x/id_3",
          CallEvent.log "Checking URL http://x/id_3 of resource id_3 succeeded with status 200:",
          CallEvent.report "http://demo.ckan.org/" (some "foo") "id_3"
            { url := "http://x/id_3", alive := true, status := some 200, reason := "OK" }] ∧
    CallEvent.report "http://demo.ckan.org/" (some "foo") "id_2"
        { url := "http://x/id_2", alive := true, status := some 200, reason := "OK" } ∉
      processResource "http://demo.ckan.org/" (some "foo") skipResolver skipProber "id_2" := by
  have h := get_check_and_report_skip_on_resolution_failure "http://demo.ckan.org/"
    (some "foo") ["id_1"] ["id_3"] "id_2" skipLister skipResolver skipProber
    "Couldn\x27t get URL for resource id_2: 403 Forbidden" rfl rfl
  exact ⟨h.1, h.2.1 _⟩

/-- The client site network of the C6 witness scenario: the listing endpoint
answers 403 Forbidden. -/
def forbiddenNet : Request → HttpResponse (List String) :=
  fun _ => { status := 403, reason := "Forbidden", body := [] }

/-- The client site network of the C6 counterexample: the listing endpoint
answers 304 Not Modified. -/
def notModifiedListingNet : Request → HttpResponse (List String) :=
  fun _ => { status := 304, reason := "Not Modified", body := [] }

/-- The client site network of the C6 witness success side: the listing
endpoint answers 200 OK with one resource id. -/
def okListingNet : Request → HttpResponse (List String) :=
  fun _ => { status := 200, reason := "OK", body := ["id_1"] }

/-- Claim C6 as stated: whenever the listing endpoint returns a non success
(non 2xx) status, get_resources_to_check raises a
CouldNotGetResourceIDsError. -/
def nonSuccessListingRaisesClaim : Prop :=
  ∀ (net : Request → HttpResponse (List String)) (base : String) (key : Option String),
    ¬ (200 ≤ (net (listRequest base key)).status ∧
        (net (listRequest base key)).status ≤ 299) →
    ∃ e, get_resources_to_check net base key = Except.error e

/-- C6 counterexample: a 304 Not Modified listing response is not a success
(2xx) status, yet response.ok is True, because raise_for_status raises only
for statuses 400 to 599, so get_resources_to_check returns the decoded body
normally instead of raising. -/
theorem listing_non2xx_raises_counterexample : ¬ nonSuccessListingRaisesClaim := by
  intro hcl
  obtain ⟨e, he⟩ := hcl notModifiedListingNet "http://demo.ckan.org/" none (by decide)
  have hok : get_resources_to_check notModifiedListingNet "http://demo.ckan.org/" none =
      Except.ok [] := rfl
  rw [hok] at he
  exact Except.noConfusion he

/-- C6 (amended): the listing step fails exactly on the statuses where
response.ok is False. When the listing response status is in 400..599,
get_resources_to_check fails with the CouldNotGetResourceIDsError message
carrying that status and reason; with any other status it returns the
decoded body normally. A failing lister aborts the whole run of
get_check_and_report with an empty trace (nothing resolved, probed, or
reported); and whenever the lister succeeds the run completes, so listing
is the only step of the cycle whose declared failure terminates it. -/
theorem listing_error_status_aborts_run (net : Request → HttpResponse (List String))
    (base : String) (key : Option String) :
    (400 ≤ (net (listRequest base key)).status →
      (net (listRequest base key)).status < 600 →
      get_resources_to_check net base key =
        Except.error ("Couldn\x27t get resource IDs to check: " ++
          toString (net (listRequest base key)).status ++ " " ++
          (net (listRequest base key)).reason)) ∧
    (¬ (400 ≤ (net (listRequest base key)).status ∧
        (net (listRequest base key)).status < 600) →
      get_resources_to_check net base key =
        Except.ok (net (listRequest base key)).body) ∧
    (∀ lister resolver prober e, lister base key = Except.error e →
      get_check_and_report base key lister resolver prober = Except.error e) ∧
    (∀ lister resolver prober ids, lister base key = Except.ok ids →
      ∃ t, get_check_and_report base key lister resolver prober = Except.ok t) := by
  refine ⟨?_, ?_, ?_, ?_⟩
  · intro h4 h6
    have hok : ¬ ((net (listRequest base key)).ok = true) := by
      simp only [HttpResponse.ok, decide_eq_true_eq]
      exact not_not_intro ⟨h4, h6⟩
    unfold get_resources_to_check
    rw [if_pos hok]
  · intro hno
    have hok : (net (listRequest base key)).ok = true := by
      simp only [HttpResponse.ok, decide_eq_true_eq]
      exact hno
    unfold get_resources_to_check
    rw [if_neg (not_not_intro hok)]
  · intro lister resolver prober e he
    unfold get_check_and_report
    rw [he]
  · intro lister resolver prober ids hok
    unfold get_check_and_report
    rw [hok]
    exact ⟨_, rfl⟩

/-- C6 witness: with the listing endpoint answering 403 Forbidden the
lister fails with the formatted message and running the orchestrator with
that lister aborts with the same error and no trace; with the listing
endpoint answering 200 OK the lister returns the ids normally. -/
theorem listing_error_status_aborts_run_witness :
    get_resources_to_check forbiddenNet "http://demo.ckan.org/" none =
      Except.error "Couldn\x27t get resource IDs to check: 403 Forbidden" ∧
    get_check_and_report "http://demo.ckan.org/" none
        (fun b k => get_resources_to_check forbiddenNet b k) testResolver testProber =
      Except.error "Couldn\x27t get resource IDs to check: 403 Forbidden" ∧
    get_resources_to_check okListingNet "http://demo.ckan.org/" none =
      Except.ok ["id_1"] := by
  have h := listing_error_status_aborts_run forbiddenNet "http://demo.ckan.org/" none
  have hk := listing_error_status_aborts_run okListingNet "http://demo.ckan.org/" none
  have herr := h.1 (by decide) (by decide)
  exact ⟨herr, h.2.2.1 _ testResolver testProber _ herr, hk.2.1 (by decide)⟩

/-! Claims about the HTTP surface and main. -/

/-- C7: the Authorization header policy of the three client site endpoints.
Every request built by the lister, the resolver, and the reporter uses the
headers dict with the configured key as the Authorization value; since the
requests library drops None valued headers, the header is omitted entirely
when no API key is configured, and carries exactly the key otherwise. -/
theorem authorization_header_policy (base : String) (key : Option String)
    (resource_id : String) (h : Heap) (a : Nat) :
    (key = none →
      sentHeaders (listRequest base key).headers = [] ∧
      sentHeaders (resolveRequest base key resource_id).headers = [] ∧
      sentHeaders (upsert_result base key resource_id h a).2.headers = []) ∧
    (∀ k, key = some k →
      sentHeaders (listRequest base key).headers = [("Authorization", k)] ∧
      sentHeaders (resolveRequest base key resource_id).headers = [("Authorization", k)] ∧
      sentHeaders (upsert_result base key resource_id h a).2.headers =
        [("Authorization", k)]) := by
  constructor
  · intro hk
    subst hk
    exact ⟨rfl, rfl, rfl⟩
  · intro k hk
    subst hk
    exact ⟨rfl, rfl, rfl⟩

/-- C7 witness: no key configured sends no Authorization header on the
listing request; a configured key is carried verbatim, also on the upsert
request. -/
theorem authorization_header_policy_witness :
    sentHeaders (listRequest "http://demo.ckan.org/" none).headers = [] ∧
    sentHeaders (listRequest "http://demo.ckan.org/" (some "foo")).headers =
      [("Authorization", "foo")] ∧
    sentHeaders (upsert_result "http://demo.ckan.org/" (some "foo") "id_1"
        [[("url", PyVal.str "u")]] 0).2.headers = [("Authorization", "foo")] := by
  have h0 := authorization_header_policy "http://demo.ckan.org/" none "id_1"
    [[("url", PyVal.str "u")]] 0
  have h1 := authorization_header_policy "http://demo.ckan.org/" (some "foo") "id_1"
    [[("url", PyVal.str "u")]] 0
  exact ⟨(h0.1 rfl).1, (h1.2 "foo" rfl).1, (h1.2 "foo" rfl).2.2⟩

/-- C8: trailing slash normalization of the --url argument. The normalized
base URL always ends with a slash; a URL already ending with a slash passes
through unchanged; the normalization is idempotent; and a successful run of
main hands exactly the normalized URL to get_check_and_report as base. -/
theorem base_url_normalization (u : String) (key : Option String) (port : Nat)
    (process : String)
    (lister : String → Option String → Except String (List String))
    (resolver : String → Option String → String → Except String String)
    (prober : String → ProbeResult) :
    endsWithSlash (normalizeBaseUrl u) = true ∧
    (endsWithSlash u = true → normalizeBaseUrl u = u) ∧
    normalizeBaseUrl (normalizeBaseUrl u) = normalizeBaseUrl u ∧
    main u key port process BindOutcome.success lister resolver prober =
      MainOutcome.ran
        (get_check_and_report (normalizeBaseUrl u) key lister resolver prober) := by
  have hpass : ∀ v : String, endsWithSlash v = true → normalizeBaseUrl v = v := by
    intro v hv
    unfold normalizeBaseUrl
    rw [if_pos hv]
  have hslash : endsWithSlash (normalizeBaseUrl u) = true := by
    unfold normalizeBaseUrl
    by_cases h : endsWithSlash u
    · rw [if_pos h]
      exact h
    · rw [if_neg h]
      unfold endsWithSlash
      rw [String.data_append]
      show ((u.data ++ ['/']).getLast? == some '/') = true
      rw [List.getLast?_concat]
      rfl
  exact ⟨hslash, hpass u, hpass _ hslash, rfl⟩

/-- C8 witness: a base URL without trailing slash gets one and the result
ends with a slash; a base URL with trailing slash is unchanged. -/
theorem base_url_normalization_witness :
    endsWithSlash (normalizeBaseUrl "http://demo.ckan.org") = true ∧
    normalizeBaseUrl "http://demo.ckan.org/" = "http://demo.ckan.org/" := by
  have h0 := base_url_normalization "http://demo.ckan.org" none 4723 "deadoralive.py"
    testLister testResolver testProber
  have h1 := base_url_normalization "http://demo.ckan.org/" none 4723 "deadoralive.py"
    testLister testResolver testProber
  exact ⟨h0.1, h1.2.1 (by decide)⟩

/-- C9: the single instance guard of main distinguishes bind errors. Errno
98 (address in use) exits with the explanatory message, which names the
offending port, and the run outcome is an exit, not a checking cycle; every
other errno is re raised unchanged. -/
theorem single_instance_guard (u : String) (key : Option String) (port : Nat)
    (process : String) (errno : Nat)
    (lister : String → Option String → Except String (List String))
    (resolver : String → Option String → String → Except String String)
    (prober : String → ProbeResult) :
    (errno = 98 →
      main u key port process (BindOutcome.failure errno) lister resolver prober =
        MainOutcome.exited (portInUseMsg port process) ∧
      ∃ pre suf, portInUseMsg port process = pre ++ toString port ++ suf) ∧
    (errno ≠ 98 →
      main u key port process (BindOutcome.failure errno) lister resolver prober =
        MainOutcome.raised errno) := by
  constructor
  · intro h
    subst h
    refine ⟨rfl, "Port ",
      " is already in use.\n" ++
        ("Is there another instance of " ++ process ++ " already running?\n" ++
          ("To run multiple instances of " ++ process ++
            " at once use the --port <num> option.")), ?_⟩
    unfold portInUseMsg
    simp only [String.append_assoc]
  · intro h
    unfold main
    show (if errno = 98 then MainOutcome.exited (portInUseMsg port process)
      else MainOutcome.raised errno) = MainOutcome.raised errno
    rw [if_neg h]

/-- C9 witness: errno 98 on port 4723 exits with the message naming 4723,
and errno 13 is re raised. -/
theorem single_instance_guard_witness :
    main "http://demo.ckan.org" none 4723 "deadoralive.py"
        (BindOutcome.failure 98) testLister testResolver testProber =
      MainOutcome.exited (portInUseMsg 4723 "deadoralive.py") ∧
    main "http://demo.ckan.org" none 4723 "deadoralive.py"
        (BindOutcome.failure 13) testLister testResolver testProber =
      MainOutcome.raised 13 := by
  have h98 := single_instance_guard "http://demo.ckan.org" none 4723 "deadoralive.py"
    98 testLister testResolver testProber
  have h13 := single_instance_guard "http://demo.ckan.org" none 4723 "deadoralive.py"
    13 testLister testResolver testProber
  exact ⟨(h98.1 rfl).1, h13.2 (by decide)⟩

/-- C10: upsert_result never mutates the dict the caller passes in. The
copy is a fresh heap object and the resource_id entry is added to the copy
in place, so every dict object that existed before the call, in particular
the result dict at address a, is unchanged afterwards. -/
theorem upsert_result_no_mutation (base : String) (key : Option String)
    (resource_id : String) (h : Heap) (a i : Nat) (hi : i < h.length) :
    ((upsert_result base key resource_id h a).1)[i]? = h[i]? := by
  show ((h ++ [h.getD a []]).set h.length
      (dictSet ((h ++ [h.getD a []]).getD h.length [])
        "resource_id" (PyVal.str resource_id)))[i]? = h[i]?
  rw [List.getElem?_set_ne (by omega)]
  exact List.getElem?_append_left hi

/-- C10 witness: posting a concrete 200 OK result leaves the dict at the
result address bound to exactly its old value. -/
theorem upsert_result_no_mutation_witness :
    ((upsert_result "http://demo.ckan.org/" (some "foo") "id_1"
        [[("url", PyVal.str "u"), ("alive", PyVal.bool true),
          ("status", PyVal.int 200), ("reason", PyVal.str "OK")]] 0).1)[0]? =
      some [("url", PyVal.str "u"), ("alive", PyVal.bool true),
        ("status", PyVal.int 200), ("reason", PyVal.str "OK")] := by
  have h := upsert_result_no_mutation "http://demo.ckan.org/" (some "foo") "id_1"
    [[("url", PyVal.str "u"), ("alive", PyVal.bool true),
      ("status", PyVal.int 200), ("reason", PyVal.str "OK")]] 0 0 (by decide)
  rw [h]
  rfl

end Deadoralive
